import Mathlib

/-!
Verification of the grasshopper-mcp bridge (`grasshopper_mcp/bridge.py`).

The Python source is shallowly embedded: dictionaries become association
lists of `String × JVal`, Python floats become rationals, fallible
transport steps become `Except`, and each bridge operation becomes a pure
Lean function over those data.  The theorems below settle the documented
properties of the slider-range inference, the component-name alias
resolution, the connection-port resolver, the code analyzer and the
transport error conversion.
-/

set_option maxRecDepth 8000

/-- JSON-like values exchanged with the Grasshopper peer. -/
inductive JVal where
  | jnull
  | jbool (b : Bool)
  | jnum (q : ℚ)
  | jstr (s : String)
  | jarr (xs : List JVal)
  | jobj (kvs : List (String × JVal))

/-- First-match association-list lookup (Python dict access for the
dictionaries built by the bridge, whose keys are distinct). -/
def alookup {α : Type} (kvs : List (String × α)) (k : String) : Option α :=
  match kvs with
  | [] => none
  | (k', v) :: rest => if k' = k then some v else alookup rest k

/-- Python built-in `max(a, b)`: the second argument only when it is
strictly greater. -/
def pymax (a b : ℚ) : ℚ := if a < b then b else a

/-- Python built-in `min(a, b)`: the first argument when it is not
greater. -/
def pymin (a b : ℚ) : ℚ := if a ≤ b then a else b

/-- Python built-in `abs` on numbers. -/
def pyabs (a : ℚ) : ℚ := if a < 0 then -a else a

theorem pymax_eq_max (a b : ℚ) : pymax a b = max a b := by
  unfold pymax
  rcases lt_or_ge a b with h | h
  · rw [if_pos h, max_eq_right (le_of_lt h)]
  · rw [if_neg (not_lt.mpr h), max_eq_left h]

theorem pymin_eq_min (a b : ℚ) : pymin a b = min a b := by
  unfold pymin
  rcases le_or_lt a b with h | h
  · rw [if_pos h, min_eq_left h]
  · rw [if_neg (not_le.mpr h), min_eq_right (le_of_lt h)]

theorem pyabs_eq_abs (a : ℚ) : pyabs a = |a| := by
  unfold pyabs
  rcases lt_or_ge a 0 with h | h
  · rw [if_pos h, abs_of_neg h]
  · rw [if_neg (not_lt.mpr h), abs_of_nonneg h]

/-- ASCII model of Python `str.lower()`. -/
def pyLower (s : String) : String :=
  String.mk (s.toList.map Char.toLower)

/-- ASCII whitespace as recognised by Python `str.strip()` on the
strings this program handles. -/
def isPyWS (c : Char) : Bool :=
  c = ' ' || c = '\t' || c = '\n' || c = '\r' || c = '\x0b' || c = '\x0c'

/-- Model of Python `str.strip()`: drop whitespace from both ends. -/
def pyStrip (s : String) : String :=
  String.mk (((s.toList.dropWhile isPyWS).reverse.dropWhile isPyWS).reverse)

/-- Bool-valued infix test on character lists. -/
def listInfix (needle hay : List Char) : Bool :=
  (List.range (hay.length + 1)).any (fun i => needle.isPrefixOf (hay.drop i))

/-- Model of Python `sub in s` substring membership. -/
def strContains (s sub : String) : Bool :=
  listInfix sub.toList s.toList

/-- The alias table of `add_component` (`component_mapping` in the source):
lower-cased free-form names mapped to canonical component names. -/
def component_mapping : List (String × String) :=
  [ ("number slider", "Number Slider"),
    ("numeric slider", "Number Slider"),
    ("num slider", "Number Slider"),
    ("slider", "Number Slider"),
    ("md slider", "MD Slider"),
    ("multidimensional slider", "MD Slider"),
    ("multi-dimensional slider", "MD Slider"),
    ("graph mapper", "Graph Mapper"),
    ("boolean", "Boolean Toggle"),
    ("bool", "Boolean Toggle"),
    ("toggle", "Boolean Toggle"),
    ("integer", "Integer"),
    ("int", "Integer"),
    ("add", "Addition"),
    ("addition", "Addition"),
    ("plus", "Addition"),
    ("sum", "Addition"),
    ("+", "Addition"),
    ("subtract", "Subtraction"),
    ("subtraction", "Subtraction"),
    ("minus", "Subtraction"),
    ("difference", "Subtraction"),
    ("-", "Subtraction"),
    ("multiply", "Multiplication"),
    ("multiplication", "Multiplication"),
    ("times", "Multiplication"),
    ("product", "Multiplication"),
    ("*", "Multiplication"),
    ("divide", "Division"),
    ("division", "Division"),
    ("/", "Division"),
    ("list item", "List Item"),
    ("item", "List Item"),
    ("list length", "List Length"),
    ("length", "List Length"),
    ("series", "Series"),
    ("range", "Range"),
    ("move", "Move"),
    ("translate", "Move"),
    ("rotate", "Rotate"),
    ("scale", "Scale"),
    ("construct point", "Construct Point"),
    ("point", "Construct Point"),
    ("pt", "Construct Point"),
    ("vector 2pt", "Vector 2Pt"),
    ("vector", "Vector 2Pt"),
    ("distance", "Distance"),
    ("dist", "Distance"),
    ("line", "Line"),
    ("rectangle", "Rectangle"),
    ("rect", "Rectangle"),
    ("circle", "Circle"),
    ("loft", "Loft"),
    ("curve length", "Curve Length"),
    ("evaluate curve", "Evaluate Curve"),
    ("divide curve", "Divide Curve"),
    ("join curves", "Join Curves"),
    ("offset curve", "Offset Curve"),
    ("box", "Box"),
    ("cube", "Box"),
    ("sphere", "Sphere"),
    ("cylinder", "Cylinder"),
    ("cone", "Cone"),
    ("panel", "Panel"),
    ("text panel", "Panel"),
    ("output panel", "Panel"),
    ("display", "Panel") ]

/-- The name-normalisation step of `add_component`: lower-case the raw
name, replace it by the canonical name on an exact table hit, otherwise
pass it through unchanged. -/
def resolveComponentType (component_type : String) : String :=
  match alookup component_mapping (pyLower component_type) with
  | some canonical => canonical
  | none => component_type

/-- The parameter dictionary assembled by `add_component` before it is
sent to the peer, including the slider auto-range logic. -/
def add_component_params (component_type : String) (x y : ℚ)
    (min_value max_value value : Option ℚ) : List (String × JVal) :=
  let ct := resolveComponentType component_type
  let base := [("type", JVal.jstr ct), ("x", JVal.jnum x), ("y", JVal.jnum y)]
  if strContains (pyLower ct) "slider" then
    let p1 := base
      ++ (match min_value with | some m => [("min", JVal.jnum m)] | none => [])
      ++ (match max_value with | some m => [("max", JVal.jnum m)] | none => [])
      ++ (match value with | some v => [("value", JVal.jnum v)] | none => [])
    match value, min_value, max_value with
    | some v, none, none =>
        if 1 < v then
          p1 ++ [("min", JVal.jnum 0), ("max", JVal.jnum (pymax 10 (v * 2)))]
        else if v < 0 then
          p1 ++ [("min", JVal.jnum (pymin (v * 2) (-10))),
                 ("max", JVal.jnum (pymax 10 (pyabs v * 2)))]
        else
          p1 ++ [("min", JVal.jnum 0), ("max", JVal.jnum (pymax 2 (v * 2)))]
    | _, none, none =>
        p1 ++ [("min", JVal.jnum 0), ("max", JVal.jnum 10)]
    | _, _, _ => p1
  else
    base

/-- Range lower bound computed by `create_slider_with_value`. -/
def richSliderMin (target_value : ℚ) : ℚ :=
  if target_value ≤ 0 then
    (if target_value < 0 then pymin (target_value * 2) (-10) else (-10 : ℚ))
  else if target_value ≤ 1 then 0
  else 0

/-- Range upper bound computed by `create_slider_with_value`. -/
def richSliderMax (target_value : ℚ) : ℚ :=
  if target_value ≤ 0 then pymax 10 (pyabs target_value * 2)
  else if target_value ≤ 1 then pymax 2 (target_value * 2)
  else pymax (target_value * 2) (target_value + 10)

/-- Rounding precision computed by `create_slider_with_value`. -/
def richSliderPrecision (target_value : ℚ) : ℚ :=
  if pyabs target_value < 1/10 then 1/100
  else if pyabs target_value < 1 then 1/10
  else 1/2

/-- The parameter dictionary assembled by `create_slider_with_value`. -/
def create_slider_with_value_params (x y target_value : ℚ) (name : String) :
    List (String × JVal) :=
  [("type", JVal.jstr "Number Slider"), ("x", JVal.jnum x), ("y", JVal.jnum y),
   ("min", JVal.jnum (richSliderMin target_value)),
   ("max", JVal.jnum (richSliderMax target_value)),
   ("value", JVal.jnum target_value),
   ("rounding", JVal.jnum (richSliderPrecision target_value))]
  ++ (if name = "" then [] else [("name", JVal.jstr name)])

/-- C1 counterexample: `add_component` called for a slider with
`value = 3.0` and no explicit bounds sets `max = 10.0`, not `6.0`
as the claim states, because the code computes `max(10.0, value*2)`. -/
theorem add_component_value3_max_is_ten_not_six :
    alookup (add_component_params "slider" 0 0 none none (some 3)) "max"
      = some (JVal.jnum 10) ∧
    alookup (add_component_params "slider" 0 0 none none (some 3)) "max"
      ≠ some (JVal.jnum 6) := by
  have h0 : alookup (add_component_params "slider" 0 0 none none (some 3)) "max"
      = some (JVal.jnum (pymax 10 (3 * 2))) := by rfl
  have h : alookup (add_component_params "slider" 0 0 none none (some 3)) "max"
      = some (JVal.jnum 10) := by
    rw [h0]
    norm_num [pymax]
  refine ⟨h, ?_⟩
  rw [h]
  intro hc
  have h1 : JVal.jnum 10 = JVal.jnum 6 := by injection hc
  have h2 : (10 : ℚ) = 6 := by injection h1
  norm_num at h2

/-- C1 (amended): for a target value of 3.0, the single-value path of
`add_component` sets `max = max(10, 3*2) = 10.0`, while the rich path of
`create_slider_with_value` sets `max = max(3*2, 3+10) = 13.0`; the two
inference paths genuinely disagree, but the single-value maximum is 10.0
rather than the claimed 6.0. -/
theorem slider_two_path_maxima_at_three :
    alookup (add_component_params "slider" 0 0 none none (some 3)) "max"
      = some (JVal.jnum 10) ∧
    alookup (create_slider_with_value_params 0 0 3 "") "max"
      = some (JVal.jnum 13) ∧
    (10 : ℚ) ≠ (13 : ℚ) := by
  refine ⟨?_, ?_, by norm_num⟩
  · have h0 : alookup (add_component_params "slider" 0 0 none none (some 3)) "max"
        = some (JVal.jnum (pymax 10 (3 * 2))) := by rfl
    rw [h0]
    norm_num [pymax]
  · have h0 : alookup (create_slider_with_value_params 0 0 3 "") "max"
        = some (JVal.jnum (richSliderMax 3)) := by rfl
    rw [h0]
    norm_num [richSliderMax, pymax, pyabs]

/-- C2: every parameter set produced by `create_slider_with_value`
satisfies `min ≤ target ≤ max`, with `rounding` equal to the positive
tier value determined by the target's magnitude (0.01 below 0.1, 0.1
below 1.0, else 0.5); and whenever `add_component`'s slider path is
taken with a value and no explicit bounds, the auto-adjusted range
satisfies `min ≤ value ≤ max`. -/
theorem slider_range_invariant :
    (∀ (x y target : ℚ) (nm : String),
      alookup (create_slider_with_value_params x y target nm) "min"
        = some (JVal.jnum (richSliderMin target)) ∧
      alookup (create_slider_with_value_params x y target nm) "max"
        = some (JVal.jnum (richSliderMax target)) ∧
      alookup (create_slider_with_value_params x y target nm) "rounding"
        = some (JVal.jnum (richSliderPrecision target)) ∧
      richSliderMin target ≤ target ∧
      target ≤ richSliderMax target ∧
      0 < richSliderPrecision target ∧
      richSliderPrecision target =
        (if |target| < 1/10 then 1/100 else if |target| < 1 then 1/10 else 1/2)) ∧
    (∀ (ct : String) (x y v : ℚ),
      strContains (pyLower (resolveComponentType ct)) "slider" = true →
      ∃ mn mx : ℚ,
        alookup (add_component_params ct x y none none (some v)) "min"
          = some (JVal.jnum mn) ∧
        alookup (add_component_params ct x y none none (some v)) "max"
          = some (JVal.jnum mx) ∧
        mn ≤ v ∧ v ≤ mx) := by
  constructor
  · intro x y target nm
    refine ⟨by rfl, by rfl, by rfl, ?_, ?_, ?_, ?_⟩
    · unfold richSliderMin
      split_ifs with h1 h2
      · rw [pymin_eq_min]
        exact le_trans (min_le_left _ _) (by linarith)
      · linarith
      · linarith
      · linarith
    · unfold richSliderMax
      rw [pymax_eq_max, pymax_eq_max, pymax_eq_max, pyabs_eq_abs]
      split_ifs with h1 h3
      · exact le_trans (by linarith : target ≤ (10:ℚ)) (le_max_left _ _)
      · exact le_trans (by linarith : target ≤ (2:ℚ)) (le_max_left _ _)
      · exact le_trans (by linarith : target ≤ target + 10) (le_max_right _ _)
    · unfold richSliderPrecision
      split_ifs <;> norm_num
    · unfold richSliderPrecision
      rw [pyabs_eq_abs]
  · intro ct x y v h
    unfold add_component_params
    simp only [h, if_true]
    split_ifs with h1 h2
    · refine ⟨0, pymax 10 (v * 2), by rfl, by rfl, by linarith, ?_⟩
      rw [pymax_eq_max]
      exact le_trans (by linarith : v ≤ v * 2) (le_max_right _ _)
    · refine ⟨pymin (v * 2) (-10), pymax 10 (pyabs v * 2), by rfl, by rfl, ?_, ?_⟩
      · rw [pymin_eq_min]
        exact le_trans (min_le_left _ _) (by linarith)
      · rw [pymax_eq_max]
        exact le_trans (by linarith : v ≤ (10:ℚ)) (le_max_left _ _)
    · refine ⟨0, pymax 2 (v * 2), by rfl, by rfl, by linarith, ?_⟩
      rw [pymax_eq_max]
      exact le_trans (by linarith : v ≤ (2:ℚ)) (le_max_left _ _)

/-- C2 witness: the invariant instantiated at the concrete slider
creation `create_slider_with_value(0, 0, 3)` and at
`add_component("slider", 0, 0, value=3)`. -/
theorem slider_range_invariant_witness :
    (alookup (create_slider_with_value_params 0 0 3 "") "min"
      = some (JVal.jnum (richSliderMin 3)) ∧
     alookup (create_slider_with_value_params 0 0 3 "") "max"
      = some (JVal.jnum (richSliderMax 3)) ∧
     alookup (create_slider_with_value_params 0 0 3 "") "rounding"
      = some (JVal.jnum (richSliderPrecision 3)) ∧
     richSliderMin 3 ≤ 3 ∧ (3:ℚ) ≤ richSliderMax 3 ∧
     0 < richSliderPrecision 3 ∧
     richSliderPrecision 3 =
       (if |(3:ℚ)| < 1/10 then 1/100 else if |(3:ℚ)| < 1 then 1/10 else 1/2)) ∧
    (∃ mn mx : ℚ,
      alookup (add_component_params "slider" 0 0 none none (some 3)) "min"
        = some (JVal.jnum mn) ∧
      alookup (add_component_params "slider" 0 0 none none (some 3)) "max"
        = some (JVal.jnum mx) ∧
      mn ≤ 3 ∧ (3:ℚ) ≤ mx) :=
  ⟨slider_range_invariant.1 0 0 3 "",
   slider_range_invariant.2 "slider" 0 0 3 (by rfl)⟩

/-- C3 counterexample: at `target_value = 0` the rich inference of
`create_slider_with_value` takes the `target <= 0` branch and returns
`min = -10.0` (and `max = 10.0`), not `min = 0`. -/
theorem rich_slider_at_zero_min_is_neg_ten :
    alookup (create_slider_with_value_params 0 0 0 "") "min"
      = some (JVal.jnum (-10)) ∧
    alookup (create_slider_with_value_params 0 0 0 "") "min"
      ≠ some (JVal.jnum 0) := by
  have h : alookup (create_slider_with_value_params 0 0 0 "") "min"
      = some (JVal.jnum (-10)) := by rfl
  refine ⟨h, ?_⟩
  rw [h]
  intro hc
  have h1 : JVal.jnum (-10) = JVal.jnum 0 := by injection hc
  have h2 : (-10 : ℚ) = 0 := by injection h1
  norm_num at h2

/-- C3 (amended): for `0 < target ≤ 1` the rich inference returns
`min = 0` and `max = max(2, target*2)`; at `target = 0` it instead
returns `min = -10` and `max = 10`, because `target = 0` falls into the
`target <= 0` branch of the code. -/
theorem rich_slider_small_target_range (x y target : ℚ) (nm : String)
    (h0 : 0 < target) (h1 : target ≤ 1) :
    alookup (create_slider_with_value_params x y target nm) "min"
      = some (JVal.jnum 0) ∧
    alookup (create_slider_with_value_params x y target nm) "max"
      = some (JVal.jnum (max 2 (target * 2))) ∧
    alookup (create_slider_with_value_params 0 0 0 "") "min"
      = some (JVal.jnum (-10)) ∧
    alookup (create_slider_with_value_params 0 0 0 "") "max"
      = some (JVal.jnum 10) := by
  have hmin : richSliderMin target = 0 := by
    unfold richSliderMin
    rw [if_neg (by linarith), if_pos h1]
  have hmax : richSliderMax target = max 2 (target * 2) := by
    unfold richSliderMax
    rw [if_neg (by linarith), if_pos h1, pymax_eq_max]
  refine ⟨?_, ?_, by rfl, ?_⟩
  · show some (JVal.jnum (richSliderMin target)) = some (JVal.jnum 0)
    rw [hmin]
  · show some (JVal.jnum (richSliderMax target))
        = some (JVal.jnum (max 2 (target * 2)))
    rw [hmax]
  · have h0 : alookup (create_slider_with_value_params 0 0 0 "") "max"
        = some (JVal.jnum (richSliderMax 0)) := by rfl
    rw [h0]
    norm_num [richSliderMax, pymax, pyabs]

/-- C3 witness: the amended statement instantiated at `target = 1/2`. -/
theorem rich_slider_small_target_range_witness :
    (0:ℚ) < 1/2 ∧ (1/2:ℚ) ≤ 1 ∧
    alookup (create_slider_with_value_params 0 0 (1/2) "") "min"
      = some (JVal.jnum 0) ∧
    alookup (create_slider_with_value_params 0 0 (1/2) "") "max"
      = some (JVal.jnum (max 2 ((1/2) * 2))) :=
  ⟨by norm_num, by norm_num,
   (rich_slider_small_target_range 0 0 (1/2) "" (by norm_num) (by norm_num)).1,
   (rich_slider_small_target_range 0 0 (1/2) "" (by norm_num) (by norm_num)).2.1⟩

/-- C8: component-name resolution lower-cases the raw name and is an
exact-match lookup in the alias table: any two spellings with the same
lower-casing resolve identically when the lower-cased key is known; an
unknown lower-cased name passes through unchanged; and the documented
concrete resolutions hold ("toggle" to "Boolean Toggle", "add" and "+"
to "Addition", unknown "gizmo" to itself). -/
theorem alias_resolution :
    (∀ s t : String,
      alookup component_mapping (pyLower s) ≠ none →
      pyLower t = pyLower s →
      resolveComponentType t = resolveComponentType s) ∧
    (∀ s : String,
      alookup component_mapping (pyLower s) = none →
      resolveComponentType s = s) ∧
    resolveComponentType "toggle" = "Boolean Toggle" ∧
    resolveComponentType "add" = "Addition" ∧
    resolveComponentType "+" = "Addition" ∧
    resolveComponentType "gizmo" = "gizmo" := by
  refine ⟨?_, ?_, by rfl, by rfl, by rfl, by rfl⟩
  · intro s t hne h
    unfold resolveComponentType
    rw [h]
    cases hl : alookup component_mapping (pyLower s) with
    | none => exact absurd hl hne
    | some c => rfl
  · intro s h
    unfold resolveComponentType
    rw [h]

/-- C8 witness: the pure-function law applied to the case variant
"ToGgLe" of the known key "toggle", and pass-through applied to the
unknown name "gizmo". -/
theorem alias_resolution_witness :
    alookup component_mapping (pyLower "toggle") ≠ none ∧
    pyLower "ToGgLe" = pyLower "toggle" ∧
    resolveComponentType "ToGgLe" = resolveComponentType "toggle" ∧
    alookup component_mapping (pyLower "gizmo") = none ∧
    resolveComponentType "gizmo" = "gizmo" :=
  ⟨by decide, by rfl,
   alias_resolution.1 "toggle" "ToGgLe" (by decide) (by rfl),
   by rfl, alias_resolution.2.1 "gizmo" (by rfl)⟩

/-- ASCII model of the `\w` character class of the Python regexes in
`analyze_code_variables`. -/
def isWordChar (c : Char) : Bool :=
  c.isAlphanum || c = '_'

/-- `re.match(r'^(\w+)\s*=', line)`: a leading run of word characters,
optional whitespace, then an equals sign; returns the captured run. -/
def leadingAssign (line : String) : Option String :=
  let run := line.toList.takeWhile isWordChar
  if run.isEmpty then none
  else
    match (line.toList.drop run.length).dropWhile isPyWS with
    | '=' :: _ => some (String.mk run)
    | _ => none

/-- Maximal word-character runs of a line (used to model
`re.findall(r'\b([a-zA-Z_][a-zA-Z0-9_]*)\b', line)`). -/
def wordRunsAux : List Char → List Char → List (List Char)
  | [], cur => if cur.isEmpty then [] else [cur.reverse]
  | c :: rest, cur =>
      if isWordChar c then wordRunsAux rest (c :: cur)
      else if cur.isEmpty then wordRunsAux rest []
      else cur.reverse :: wordRunsAux rest []

/-- All identifier-shaped tokens of a line: maximal word-character runs
whose first character is a letter or underscore, exactly the matches of
`\b([a-zA-Z_][a-zA-Z0-9_]*)\b`. -/
def identsOfLine (line : String) : List String :=
  ((wordRunsAux line.toList []).filter (fun r =>
    match r with
    | c :: _ => c.isAlpha || c = '_'
    | [] => false)).map String.mk

/-- Keyword/builtin exclusion list of the Python dialect branch. -/
def python_keywords : List String :=
  ["print", "len", "range", "for", "if", "else", "elif", "while", "def",
   "class", "import", "from", "as", "True", "False", "None", "and", "or",
   "not", "in", "is", "math", "ghpythonlib", "Rhino", "Grasshopper",
   "System"]

/-- Conventional output-variable vocabulary of the Python dialect branch. -/
def python_output_names : List String :=
  ["result", "output", "a", "b", "c", "out", "geometry", "points",
   "curves", "surfaces"]

/-- Keyword/builtin exclusion list of the C# dialect branch. -/
def csharp_keywords : List String :=
  ["var", "int", "double", "string", "bool", "if", "else", "for", "while",
   "foreach", "using", "namespace", "class", "public", "private", "static",
   "void", "return", "true", "false", "null", "new", "this", "base",
   "Point3d", "Vector3d", "Plane", "Circle", "Line", "Curve", "Surface",
   "Brep", "Mesh", "Math", "System", "Rhino", "Grasshopper"]

/-- Conventional output-variable vocabulary of the C# dialect branch. -/
def csharp_output_names : List String :=
  ["result", "output", "a", "b", "c", "out"]

/-- Python `set.add`, modelled on a duplicate-free list; iteration order
of the model is insertion order (CPython's real iteration order over a
`set` is unspecified, which is why the theorems below only use
membership). -/
def insertSet (v : String) (l : List String) : List String :=
  if v ∈ l then l else l ++ [v]

/-- Bool-valued model of Python `str.startswith`. -/
def strStartsWith (s pre : String) : Bool :=
  pre.toList.isPrefixOf s.toList

/-- Per-line step of `analyze_code_variables`, for one dialect given its
comment marker, output vocabulary and keyword list; threads the
`(inputs, outputs)` accumulator pair. -/
def analyzeLine (commentMark : String) (output_names keywords : List String)
    (acc : List String × List String) (rawLine : String) :
    List String × List String :=
  let line := pyStrip rawLine
  if line = "" ∨ strStartsWith line commentMark then acc
  else
    let am := leadingAssign line
    let outs := match am with
      | some v => if pyLower v ∈ output_names then insertSet v acc.2 else acc.2
      | none => acc.2
    let ins := (identsOfLine line).foldl (fun ins var =>
      if var ∈ keywords then ins
      else
        match am with
        | some v => if var = v then ins else insertSet var ins
        | none => insertSet var ins) acc.1
    (ins, outs)

/-- Python `code.split('\n')`. -/
def splitLinesAux : List Char → List Char → List String
  | [], cur => [String.mk cur.reverse]
  | c :: rest, cur =>
      if c = '\n' then String.mk cur.reverse :: splitLinesAux rest []
      else splitLinesAux rest (c :: cur)

/-- Split source code into lines at newline characters. -/
def splitLines (code : String) : List String :=
  splitLinesAux code.toList []

/-- The dialect-dispatched scanning pass of `analyze_code_variables`:
an unrecognised language leaves both candidate sets empty. -/
def analyzerScan (code language : String) : List String × List String :=
  if pyLower language = "python" then
    (splitLines code).foldl (analyzeLine "#" python_output_names python_keywords)
      ([], [])
  else if pyLower language = "csharp" then
    (splitLines code).foldl (analyzeLine "//" csharp_output_names csharp_keywords)
      ([], [])
  else ([], [])

/-- `analyze_code_variables(code, language)`: returns
`(inputs, outputs, warnings)`; outputs are subtracted from inputs, and a
self-contained warning is recorded when both sets end up empty. -/
def analyze_code_variables (code language : String) :
    List String × List String × List String :=
  let sc := analyzerScan code language
  let ins2 := sc.1.filter (fun v => decide (v ∉ sc.2))
  (ins2, sc.2,
   if ins2.isEmpty && sc.2.isEmpty then
     ["No variables detected - code might be self-contained"]
   else [])

/-- C6: for every code string and language, the analyzer's input and
output sets are disjoint (outputs are subtracted from inputs), and when
both resulting sets are empty the self-contained warning is recorded. -/
theorem analyzer_disjoint_and_warning (code language : String) :
    (∀ v, v ∈ (analyze_code_variables code language).1 →
      v ∉ (analyze_code_variables code language).2.1) ∧
    ((analyze_code_variables code language).1 = [] →
     (analyze_code_variables code language).2.1 = [] →
     (analyze_code_variables code language).2.2 =
       ["No variables detected - code might be self-contained"]) := by
  constructor
  · intro v hv
    have h := List.mem_filter.mp hv
    exact of_decide_eq_true h.2
  · intro h1 h2
    have hw : (analyze_code_variables code language).2.2 =
        if ((analyze_code_variables code language).1).isEmpty &&
           ((analyze_code_variables code language).2.1).isEmpty then
          ["No variables detected - code might be self-contained"]
        else [] := rfl
    rw [hw, h1, h2]
    rfl

/-- C6 witness: disjointness and the warning at the concrete
self-contained snippet `print(1)` in the Python dialect (every
identifier on the line is a keyword, so both sets are empty). -/
theorem analyzer_disjoint_and_warning_witness :
    (∀ v, v ∈ (analyze_code_variables "print(1)" "python").1 →
      v ∉ (analyze_code_variables "print(1)" "python").2.1) ∧
    (analyze_code_variables "print(1)" "python").2.2 =
      ["No variables detected - code might be self-contained"] :=
  ⟨(analyzer_disjoint_and_warning "print(1)" "python").1,
   (analyzer_disjoint_and_warning "print(1)" "python").2 (by rfl) (by rfl)⟩

/-- C7 counterexample: analyzing `result = a + b` with language
"generic" matches neither the "python" nor the "csharp" dialect branch,
so the analyzer returns empty input and output sets (with the
self-contained warning), not `outputs={"result"}` and
`inputs={"a","b"}`. -/
theorem analyzer_generic_language_is_empty :
    (analyze_code_variables "result = a + b" "generic").2.1 = [] ∧
    (analyze_code_variables "result = a + b" "generic").1 = [] ∧
    "result" ∉ (analyze_code_variables "result = a + b" "generic").2.1 ∧
    "a" ∉ (analyze_code_variables "result = a + b" "generic").1 ∧
    (analyze_code_variables "result = a + b" "generic").2.2 =
      ["No variables detected - code might be self-contained"] := by
  have houts : (analyze_code_variables "result = a + b" "generic").2.1 = [] := by
    rfl
  have hins : (analyze_code_variables "result = a + b" "generic").1 = [] := by
    rfl
  refine ⟨houts, hins, ?_, ?_, by rfl⟩
  · rw [houts]
    exact List.not_mem_nil _
  · rw [hins]
    exact List.not_mem_nil _

/-- C7 (amended): the documented result holds for the supported Python
dialect: analyzing `result = a + b` with language "python" yields
outputs consisting exactly of "result" and inputs consisting exactly of
"a" and "b"; with the unsupported language "generic" both sets are
empty. -/
theorem analyzer_python_result_a_b :
    (∀ v, v ∈ (analyze_code_variables "result = a + b" "python").2.1 ↔
      v = "result") ∧
    (∀ v, v ∈ (analyze_code_variables "result = a + b" "python").1 ↔
      (v = "a" ∨ v = "b")) ∧
    (analyze_code_variables "result = a + b" "generic").1 = [] ∧
    (analyze_code_variables "result = a + b" "generic").2.1 = [] := by
  have houts : (analyze_code_variables "result = a + b" "python").2.1 =
      ["result"] := by rfl
  have hins : (analyze_code_variables "result = a + b" "python").1 =
      ["a", "b"] := by rfl
  refine ⟨?_, ?_, by rfl, by rfl⟩
  · intro v
    rw [houts]
    simp
  · intro v
    rw [hins]
    simp

/-- Python truthiness of a JSON value (`if target_info:` etc.). -/
def pyTruthy (v : JVal) : Bool :=
  match v with
  | .jnull => false
  | .jbool b => b
  | .jnum q => decide (q ≠ 0)
  | .jstr s => decide (s ≠ "")
  | .jarr xs => !xs.isEmpty
  | .jobj kvs => !kvs.isEmpty

/-- Python `k in v` containment; in `connect_components` it is only ever
applied to parsed JSON objects (dictionary key membership). -/
def hasKey (v : JVal) (k : String) : Bool :=
  match v with
  | .jobj kvs => (alookup kvs k).isSome
  | .jarr xs => xs.any (fun x =>
      match x with
      | .jstr s => decide (s = k)
      | _ => false)
  | .jstr s => strContains s k
  | _ => false

/-- Python subscript `v[k]` on a JSON object (only used after a
`hasKey` guard, so the default is never observed there). -/
def getKey (v : JVal) (k : String) : JVal :=
  match v with
  | .jobj kvs => (alookup kvs k).getD JVal.jnull
  | _ => JVal.jnull

/-- Python `v.get(k)` on a JSON object. -/
def dictGet (v : JVal) (k : String) : Option JVal :=
  match v with
  | .jobj kvs => alookup kvs k
  | _ => none

/-- `conn.get("targetParam") == "A" or conn.get("targetParamIndex") == 0`
(Python equality: a missing key compares unequal, and booleans compare
equal to the numbers 0 and 1). -/
def firstInputOccupied (conn : JVal) : Bool :=
  (match dictGet conn "targetParam" with
   | some (.jstr s) => decide (s = "A")
   | _ => false) ||
  (match dictGet conn "targetParamIndex" with
   | some (.jnum q) => decide (q = 0)
   | some (.jbool b) => !b
   | _ => false)

/-- `conn.get("targetId") == target_id` for a connection record. -/
def connTargets (target_id : String) (conn : JVal) : Bool :=
  match dictGet conn "targetId" with
  | some (.jstr s) => decide (s = target_id)
  | _ => false

/-- The fixed set of binary-input arithmetic component types treated
specially by `connect_components`. -/
def arithTypes : List String :=
  ["Addition", "Subtraction", "Multiplication", "Division", "Math"]

/-- `component_type in ["Addition", ...]` for the reported type value. -/
def isArithType (v : JVal) : Bool :=
  match v with
  | .jstr s => decide (s ∈ arithTypes)
  | _ => false

/-- The `existing_connections` list built by `connect_components`: the
entries of the `get_connections` result bound to the given target. -/
def existingConnectionsTo (target_id : String) (connsResp : JVal) :
    List JVal :=
  if pyTruthy connsResp && hasKey connsResp "result" then
    match getKey connsResp "result" with
    | .jarr xs => xs.filter (connTargets target_id)
    | _ => []
  else []

/-- The effective `target_param` after the automatic port-assignment
block of `connect_components`: when the target's reported type is a
binary-input arithmetic type and the caller supplied neither a target
parameter name nor an index, port "B" is chosen when the first input is
already occupied and "A" otherwise; in every other situation the
caller's value is kept. -/
def resolvedTargetParam (target_id : String) (target_param : Option String)
    (target_param_index : Option Int) (infoResp connsResp : JVal) :
    Option String :=
  if pyTruthy infoResp && hasKey infoResp "result" &&
      hasKey (getKey infoResp "result") "type" then
    if isArithType (getKey (getKey infoResp "result") "type") then
      match target_param, target_param_index with
      | none, none =>
          some (if (existingConnectionsTo target_id connsResp).any
              firstInputOccupied then "B" else "A")
      | _, _ => target_param
    else target_param
  else target_param

/-- The source-side port fields of the final `connect_components`
parameter dictionary: a parameter name wins over an index. -/
def sourcePortFields (source_param : Option String)
    (source_param_index : Option Int) : List (String × JVal) :=
  match source_param with
  | some sp => [("sourceParam", JVal.jstr sp)]
  | none =>
      match source_param_index with
      | some i => [("sourceParamIndex", JVal.jnum (i : ℚ))]
      | none => []

/-- The target-side port fields of the final `connect_components`
parameter dictionary: a parameter name wins over an index. -/
def targetPortFields (target_param : Option String)
    (target_param_index : Option Int) : List (String × JVal) :=
  match target_param with
  | some tp => [("targetParam", JVal.jstr tp)]
  | none =>
      match target_param_index with
      | some i => [("targetParamIndex", JVal.jnum (i : ℚ))]
      | none => []

/-- The command `connect_components` finally sends: the command type and
its parameter dictionary, given the two peer responses it received for
`get_component_info` and `get_connections`. -/
def connect_components_cmd (source_id target_id : String)
    (source_param target_param : Option String)
    (source_param_index target_param_index : Option Int)
    (infoResp connsResp : JVal) : String × List (String × JVal) :=
  let tp := resolvedTargetParam target_id target_param target_param_index
    infoResp connsResp
  ("connect_components",
   [("sourceId", JVal.jstr source_id), ("targetId", JVal.jstr target_id)]
     ++ sourcePortFields source_param source_param_index
     ++ targetPortFields tp target_param_index)

theorem alookup_append_of_none {α : Type} {l1 : List (String × α)}
    (l2 : List (String × α)) (k : String) (h : alookup l1 k = none) :
    alookup (l1 ++ l2) k = alookup l2 k := by
  induction l1 with
  | nil => rfl
  | cons hd tl ih =>
      obtain ⟨k1, v1⟩ := hd
      rw [List.cons_append]
      by_cases hk : k1 = k
      · exfalso
        have h1 : alookup ((k1, v1) :: tl) k = some v1 := by
          simp [alookup, hk]
        rw [h1] at h
        exact Option.some_ne_none _ h
      · have h' : alookup tl k = none := by
          simpa [alookup, hk] using h
        calc alookup ((k1, v1) :: (tl ++ l2)) k
            = alookup (tl ++ l2) k := by simp [alookup, hk]
          _ = alookup l2 k := ih h'

theorem alookup_append_of_some {α : Type} {l1 : List (String × α)}
    (l2 : List (String × α)) (k : String) {v : α}
    (h : alookup l1 k = some v) : alookup (l1 ++ l2) k = some v := by
  induction l1 with
  | nil => exact absurd h (by simp [alookup])
  | cons hd tl ih =>
      obtain ⟨k1, v1⟩ := hd
      rw [List.cons_append]
      by_cases hk : k1 = k
      · have h1 : alookup ((k1, v1) :: tl) k = some v1 := by
          simp [alookup, hk]
        rw [h1] at h
        simpa [alookup, hk] using h
      · have h' : alookup tl k = some v := by
          simpa [alookup, hk] using h
        calc alookup ((k1, v1) :: (tl ++ l2)) k
            = alookup (tl ++ l2) k := by simp [alookup, hk]
          _ = some v := ih h'

theorem sourcePortFields_no_target (sp : Option String) (spi : Option Int) :
    alookup (sourcePortFields sp spi) "targetParam" = none ∧
    alookup (sourcePortFields sp spi) "targetParamIndex" = none := by
  cases sp with
  | some s => exact ⟨rfl, rfl⟩
  | none =>
      cases spi with
      | some i => exact ⟨rfl, rfl⟩
      | none => exact ⟨rfl, rfl⟩

/-- Lookup of the target-side port fields in the full parameter
dictionary sent by `connect_components`. -/
theorem connect_cmd_target_lookup (sid tid : String) (sp : Option String)
    (tp : Option String) (spi tpi : Option Int) (info conns : JVal) :
    alookup (connect_components_cmd sid tid sp tp spi tpi info conns).2
        "targetParam"
      = alookup (targetPortFields
          (resolvedTargetParam tid tp tpi info conns) tpi) "targetParam" ∧
    alookup (connect_components_cmd sid tid sp tp spi tpi info conns).2
        "targetParamIndex"
      = alookup (targetPortFields
          (resolvedTargetParam tid tp tpi info conns) tpi)
          "targetParamIndex" := by
  constructor
  · show alookup
        ([("sourceId", JVal.jstr sid), ("targetId", JVal.jstr tid)]
          ++ sourcePortFields sp spi
          ++ targetPortFields (resolvedTargetParam tid tp tpi info conns) tpi)
        "targetParam" = _
    rw [List.append_assoc, alookup_append_of_none _ _ (by rfl),
      alookup_append_of_none _ _ (sourcePortFields_no_target sp spi).1]
  · show alookup
        ([("sourceId", JVal.jstr sid), ("targetId", JVal.jstr tid)]
          ++ sourcePortFields sp spi
          ++ targetPortFields (resolvedTargetParam tid tp tpi info conns) tpi)
        "targetParamIndex" = _
    rw [List.append_assoc, alookup_append_of_none _ _ (by rfl),
      alookup_append_of_none _ _ (sourcePortFields_no_target sp spi).2]

theorem dictGet_pyTruthy {v : JVal} {k : String} {r : JVal}
    (h : dictGet v k = some r) : pyTruthy v = true := by
  cases v with
  | jobj kvs =>
      cases kvs with
      | nil => exact absurd h (by simp [dictGet, alookup])
      | cons hd tl => rfl
  | jnull => exact absurd h (by simp [dictGet])
  | jbool b => exact absurd h (by simp [dictGet])
  | jnum q => exact absurd h (by simp [dictGet])
  | jstr s => exact absurd h (by simp [dictGet])
  | jarr xs => exact absurd h (by simp [dictGet])

theorem dictGet_hasKey {v : JVal} {k : String} {r : JVal}
    (h : dictGet v k = some r) : hasKey v k = true := by
  cases v with
  | jobj kvs => simp [hasKey, dictGet.eq_def] at h ⊢; rw [h]; rfl
  | jnull => exact absurd h (by simp [dictGet])
  | jbool b => exact absurd h (by simp [dictGet])
  | jnum q => exact absurd h (by simp [dictGet])
  | jstr s => exact absurd h (by simp [dictGet])
  | jarr xs => exact absurd h (by simp [dictGet])

theorem dictGet_getKey {v : JVal} {k : String} {r : JVal}
    (h : dictGet v k = some r) : getKey v k = r := by
  cases v with
  | jobj kvs => simp [dictGet] at h; simp [getKey, h]
  | jnull => exact absurd h (by simp [dictGet])
  | jbool b => exact absurd h (by simp [dictGet])
  | jnum q => exact absurd h (by simp [dictGet])
  | jstr s => exact absurd h (by simp [dictGet])
  | jarr xs => exact absurd h (by simp [dictGet])

theorem targetPortFields_no_source (tp : Option String) (tpi : Option Int) :
    alookup (targetPortFields tp tpi) "sourceParam" = none ∧
    alookup (targetPortFields tp tpi) "sourceParamIndex" = none := by
  cases tp with
  | some t => exact ⟨rfl, rfl⟩
  | none =>
      cases tpi with
      | some i => exact ⟨rfl, rfl⟩
      | none => exact ⟨rfl, rfl⟩

/-- Lookup of the source-side port fields in the full parameter
dictionary sent by `connect_components`. -/
theorem connect_cmd_source_lookup (sid tid : String) (sp : Option String)
    (tp : Option String) (spi tpi : Option Int) (info conns : JVal) :
    alookup (connect_components_cmd sid tid sp tp spi tpi info conns).2
        "sourceParam"
      = alookup (sourcePortFields sp spi) "sourceParam" ∧
    alookup (connect_components_cmd sid tid sp tp spi tpi info conns).2
        "sourceParamIndex"
      = alookup (sourcePortFields sp spi) "sourceParamIndex" := by
  constructor
  · show alookup
        ([("sourceId", JVal.jstr sid), ("targetId", JVal.jstr tid)]
          ++ sourcePortFields sp spi
          ++ targetPortFields (resolvedTargetParam tid tp tpi info conns) tpi)
        "sourceParam" = _
    rw [List.append_assoc, alookup_append_of_none _ _ (by rfl)]
    cases hsrc : alookup (sourcePortFields sp spi) "sourceParam" with
    | some v => rw [alookup_append_of_some _ _ hsrc]
    | none =>
        rw [alookup_append_of_none _ _ hsrc,
          (targetPortFields_no_source _ _).1]
  · show alookup
        ([("sourceId", JVal.jstr sid), ("targetId", JVal.jstr tid)]
          ++ sourcePortFields sp spi
          ++ targetPortFields (resolvedTargetParam tid tp tpi info conns) tpi)
        "sourceParamIndex" = _
    rw [List.append_assoc, alookup_append_of_none _ _ (by rfl)]
    cases hsrc : alookup (sourcePortFields sp spi) "sourceParamIndex" with
    | some v => rw [alookup_append_of_some _ _ hsrc]
    | none =>
        rw [alookup_append_of_none _ _ hsrc,
          (targetPortFields_no_source _ _).2]

/-- C4: when the target's reported type is a binary-input arithmetic
type and the caller supplies neither a target parameter name nor an
index, the chosen target port is "B" exactly when some existing
connection to that target occupies the first input (targetParam "A" or
targetParamIndex 0) and "A" otherwise; a caller-supplied explicit port
— a parameter name, or a parameter index supplied alone — is always
used unmodified; and for non-arithmetic target types no automatic port
is assigned. -/
theorem connect_port_resolution :
    (∀ (sid tid : String) (sp : Option String) (spi : Option Int)
       (info conns r : JVal) (T : String) (xs : List JVal),
      dictGet info "result" = some r →
      dictGet r "type" = some (JVal.jstr T) →
      T ∈ arithTypes →
      dictGet conns "result" = some (JVal.jarr xs) →
      alookup (connect_components_cmd sid tid sp none spi none info conns).2
          "targetParam"
        = some (JVal.jstr
            (if (xs.filter (connTargets tid)).any firstInputOccupied
             then "B" else "A")) ∧
      ((xs.filter (connTargets tid)).any firstInputOccupied = true ↔
        ∃ c ∈ xs, connTargets tid c = true ∧ firstInputOccupied c = true)) ∧
    (∀ (sid tid : String) (sp : Option String) (spi tpi : Option Int)
       (info conns : JVal) (t : String),
      alookup (connect_components_cmd sid tid sp (some t) spi tpi info conns).2
          "targetParam"
        = some (JVal.jstr t)) ∧
    (∀ (sid tid : String) (sp : Option String) (spi : Option Int)
       (info conns r : JVal) (T : String) (i : Int),
      dictGet info "result" = some r →
      dictGet r "type" = some (JVal.jstr T) →
      T ∈ arithTypes →
      alookup (connect_components_cmd sid tid sp none spi (some i)
          info conns).2 "targetParamIndex"
        = some (JVal.jnum (i : ℚ)) ∧
      alookup (connect_components_cmd sid tid sp none spi (some i)
          info conns).2 "targetParam" = none) ∧
    (∀ (sid tid : String) (sp : Option String) (spi : Option Int)
       (info conns r : JVal) (T : String),
      dictGet info "result" = some r →
      dictGet r "type" = some (JVal.jstr T) →
      T ∉ arithTypes →
      alookup (connect_components_cmd sid tid sp none spi none info conns).2
          "targetParam" = none ∧
      alookup (connect_components_cmd sid tid sp none spi none info conns).2
          "targetParamIndex" = none) := by
  refine ⟨?_, ?_, ?_, ?_⟩
  · intro sid tid sp spi info conns r T xs h1 h2 h3 h4
    have hti := dictGet_pyTruthy h1
    have hk1 := dictGet_hasKey h1
    have hg1 := dictGet_getKey h1
    have hk2 := dictGet_hasKey h2
    have hg2 := dictGet_getKey h2
    have htc := dictGet_pyTruthy h4
    have hkc := dictGet_hasKey h4
    have hgc := dictGet_getKey h4
    have harith : isArithType (JVal.jstr T) = true := by
      simp only [isArithType, decide_eq_true_eq]
      exact h3
    have hexist : existingConnectionsTo tid conns
        = xs.filter (connTargets tid) := by
      unfold existingConnectionsTo
      simp [htc, hkc, hgc]
    have hres : resolvedTargetParam tid none none info conns
        = some (if (xs.filter (connTargets tid)).any firstInputOccupied
            then "B" else "A") := by
      unfold resolvedTargetParam
      rw [hg1, hg2]
      simp [hti, hk1, hk2, harith, hexist]
    constructor
    · rw [(connect_cmd_target_lookup sid tid sp none spi none info conns).1,
        hres]
      rfl
    · constructor
      · intro h
        obtain ⟨c, hc, hq⟩ := List.any_eq_true.mp h
        obtain ⟨hmem, hp⟩ := List.mem_filter.mp hc
        exact ⟨c, hmem, hp, hq⟩
      · rintro ⟨c, hmem, hp, hq⟩
        exact List.any_eq_true.mpr ⟨c, List.mem_filter.mpr ⟨hmem, hp⟩, hq⟩
  · intro sid tid sp spi tpi info conns t
    have hres : resolvedTargetParam tid (some t) tpi info conns = some t := by
      unfold resolvedTargetParam
      split_ifs <;> rfl
    rw [(connect_cmd_target_lookup sid tid sp (some t) spi tpi info conns).1,
      hres]
    exact rfl
  · intro sid tid sp spi info conns r T i h1 h2 h3
    have hres : resolvedTargetParam tid none (some i) info conns = none := by
      unfold resolvedTargetParam
      split_ifs <;> rfl
    constructor
    · rw [(connect_cmd_target_lookup sid tid sp none spi (some i)
        info conns).2, hres]
      exact rfl
    · rw [(connect_cmd_target_lookup sid tid sp none spi (some i)
        info conns).1, hres]
      exact rfl
  · intro sid tid sp spi info conns r T h1 h2 h3
    have hti := dictGet_pyTruthy h1
    have hk1 := dictGet_hasKey h1
    have hg1 := dictGet_getKey h1
    have hk2 := dictGet_hasKey h2
    have hg2 := dictGet_getKey h2
    have harith : isArithType (JVal.jstr T) = false := by
      simp only [isArithType, decide_eq_false_iff_not]
      exact h3
    have hres : resolvedTargetParam tid none none info conns = none := by
      unfold resolvedTargetParam
      rw [hg1, hg2]
      simp [hti, hk1, hk2, harith]
    constructor
    · rw [(connect_cmd_target_lookup sid tid sp none spi none info conns).1,
        hres]
      exact rfl
    · rw [(connect_cmd_target_lookup sid tid sp none spi none info conns).2,
        hres]
      exact rfl

/-- C4 witness: the resolver applied to an Addition target whose first
input is already occupied (choosing "B"), to a caller-supplied explicit
port name (kept), to a caller-supplied explicit port index on an
Addition target (kept, with no name added), and to a non-arithmetic
Panel target (no assignment). -/
theorem connect_port_resolution_witness :
    (alookup (connect_components_cmd "s1" "t1" none none none none
        (JVal.jobj [("result", JVal.jobj [("type", JVal.jstr "Addition")])])
        (JVal.jobj [("result", JVal.jarr
          [JVal.jobj [("targetId", JVal.jstr "t1"),
                      ("targetParam", JVal.jstr "A")]])])).2 "targetParam"
      = some (JVal.jstr
          (if ([JVal.jobj [("targetId", JVal.jstr "t1"),
                ("targetParam", JVal.jstr "A")]].filter
              (connTargets "t1")).any firstInputOccupied
           then "B" else "A")) ∧
     (([JVal.jobj [("targetId", JVal.jstr "t1"),
          ("targetParam", JVal.jstr "A")]].filter
            (connTargets "t1")).any firstInputOccupied = true ↔
       ∃ c ∈ [JVal.jobj [("targetId", JVal.jstr "t1"),
                ("targetParam", JVal.jstr "A")]],
         connTargets "t1" c = true ∧ firstInputOccupied c = true)) ∧
    alookup (connect_components_cmd "s1" "t1" none (some "C") none none
        (JVal.jobj [("result", JVal.jobj [("type", JVal.jstr "Addition")])])
        JVal.jnull).2 "targetParam" = some (JVal.jstr "C") ∧
    alookup (connect_components_cmd "s1" "t1" none none none (some 7)
        (JVal.jobj [("result", JVal.jobj [("type", JVal.jstr "Addition")])])
        JVal.jnull).2 "targetParamIndex"
      = some (JVal.jnum ((7 : Int) : ℚ)) ∧
    alookup (connect_components_cmd "s1" "t1" none none none (some 7)
        (JVal.jobj [("result", JVal.jobj [("type", JVal.jstr "Addition")])])
        JVal.jnull).2 "targetParam" = none ∧
    alookup (connect_components_cmd "s1" "t1" none none none none
        (JVal.jobj [("result", JVal.jobj [("type", JVal.jstr "Panel")])])
        JVal.jnull).2 "targetParam" = none :=
  ⟨connect_port_resolution.1 "s1" "t1" none none
      (JVal.jobj [("result", JVal.jobj [("type", JVal.jstr "Addition")])])
      (JVal.jobj [("result", JVal.jarr
        [JVal.jobj [("targetId", JVal.jstr "t1"),
                    ("targetParam", JVal.jstr "A")]])])
      (JVal.jobj [("type", JVal.jstr "Addition")]) "Addition"
      [JVal.jobj [("targetId", JVal.jstr "t1"),
                  ("targetParam", JVal.jstr "A")]]
      (by rfl) (by rfl) (by decide) (by rfl),
   connect_port_resolution.2.1 "s1" "t1" none none none
      (JVal.jobj [("result", JVal.jobj [("type", JVal.jstr "Addition")])])
      JVal.jnull "C",
   (connect_port_resolution.2.2.1 "s1" "t1" none none
      (JVal.jobj [("result", JVal.jobj [("type", JVal.jstr "Addition")])])
      JVal.jnull (JVal.jobj [("type", JVal.jstr "Addition")]) "Addition" 7
      (by rfl) (by rfl) (by decide)).1,
   (connect_port_resolution.2.2.1 "s1" "t1" none none
      (JVal.jobj [("result", JVal.jobj [("type", JVal.jstr "Addition")])])
      JVal.jnull (JVal.jobj [("type", JVal.jstr "Addition")]) "Addition" 7
      (by rfl) (by rfl) (by decide)).2,
   (connect_port_resolution.2.2.2 "s1" "t1" none none
      (JVal.jobj [("result", JVal.jobj [("type", JVal.jstr "Panel")])])
      JVal.jnull (JVal.jobj [("type", JVal.jstr "Panel")]) "Panel"
      (by rfl) (by rfl) (by decide)).1⟩

/-- C10: when the `get_component_info` response fails the
`result`/`type` guard of `connect_components` (for example a transport
failure dictionary), no automatic port assignment happens and the
`connect_components` command is still sent with sourceId, targetId and
only the caller-supplied port fields, a parameter name taking
precedence over an index on each side. -/
theorem connect_missing_info_passthrough
    (sid tid : String) (sp tp : Option String) (spi tpi : Option Int)
    (info conns : JVal)
    (hguard : (pyTruthy info && hasKey info "result" &&
        hasKey (getKey info "result") "type") = false) :
    (connect_components_cmd sid tid sp tp spi tpi info conns).1
      = "connect_components" ∧
    alookup (connect_components_cmd sid tid sp tp spi tpi info conns).2
        "sourceId" = some (JVal.jstr sid) ∧
    alookup (connect_components_cmd sid tid sp tp spi tpi info conns).2
        "targetId" = some (JVal.jstr tid) ∧
    (∀ s, sp = some s →
      alookup (connect_components_cmd sid tid sp tp spi tpi info conns).2
          "sourceParam" = some (JVal.jstr s) ∧
      alookup (connect_components_cmd sid tid sp tp spi tpi info conns).2
          "sourceParamIndex" = none) ∧
    (∀ i, sp = none → spi = some i →
      alookup (connect_components_cmd sid tid sp tp spi tpi info conns).2
          "sourceParamIndex" = some (JVal.jnum (i : ℚ)) ∧
      alookup (connect_components_cmd sid tid sp tp spi tpi info conns).2
          "sourceParam" = none) ∧
    (sp = none → spi = none →
      alookup (connect_components_cmd sid tid sp tp spi tpi info conns).2
          "sourceParam" = none ∧
      alookup (connect_components_cmd sid tid sp tp spi tpi info conns).2
          "sourceParamIndex" = none) ∧
    (∀ t, tp = some t →
      alookup (connect_components_cmd sid tid sp tp spi tpi info conns).2
          "targetParam" = some (JVal.jstr t) ∧
      alookup (connect_components_cmd sid tid sp tp spi tpi info conns).2
          "targetParamIndex" = none) ∧
    (∀ i, tp = none → tpi = some i →
      alookup (connect_components_cmd sid tid sp tp spi tpi info conns).2
          "targetParamIndex" = some (JVal.jnum (i : ℚ)) ∧
      alookup (connect_components_cmd sid tid sp tp spi tpi info conns).2
          "targetParam" = none) ∧
    (tp = none → tpi = none →
      alookup (connect_components_cmd sid tid sp tp spi tpi info conns).2
          "targetParam" = none ∧
      alookup (connect_components_cmd sid tid sp tp spi tpi info conns).2
          "targetParamIndex" = none) := by
  have hres : resolvedTargetParam tid tp tpi info conns = tp := by
    unfold resolvedTargetParam
    rw [if_neg (by simp [hguard])]
  have htgt := connect_cmd_target_lookup sid tid sp tp spi tpi info conns
  have hsrc := connect_cmd_source_lookup sid tid sp tp spi tpi info conns
  refine ⟨rfl, ?_, ?_, ?_, ?_, ?_, ?_, ?_, ?_⟩
  · show alookup
        ([("sourceId", JVal.jstr sid), ("targetId", JVal.jstr tid)]
          ++ sourcePortFields sp spi
          ++ targetPortFields (resolvedTargetParam tid tp tpi info conns) tpi)
        "sourceId" = _
    rw [List.append_assoc, alookup_append_of_some _ _ (by rfl)]
  · show alookup
        ([("sourceId", JVal.jstr sid), ("targetId", JVal.jstr tid)]
          ++ sourcePortFields sp spi
          ++ targetPortFields (resolvedTargetParam tid tp tpi info conns) tpi)
        "targetId" = _
    rw [List.append_assoc, alookup_append_of_some _ _ (by rfl)]
  · intro s hsp
    subst hsp
    exact ⟨by rw [hsrc.1]; exact rfl, by rw [hsrc.2]; exact rfl⟩
  · intro i hsp hspi
    subst hsp
    subst hspi
    exact ⟨by rw [hsrc.2]; exact rfl, by rw [hsrc.1]; exact rfl⟩
  · intro hsp hspi
    subst hsp
    subst hspi
    exact ⟨by rw [hsrc.1]; exact rfl, by rw [hsrc.2]; exact rfl⟩
  · intro t htp
    subst htp
    rw [htgt.1, htgt.2, hres]
    exact ⟨rfl, rfl⟩
  · intro i htp htpi
    subst htp
    subst htpi
    rw [htgt.1, htgt.2, hres]
    exact ⟨rfl, rfl⟩
  · intro htp htpi
    subst htp
    subst htpi
    rw [htgt.1, htgt.2, hres]
    exact ⟨rfl, rfl⟩

/-- C10 witness: a transport-failure response (no "result" entry) with a
source parameter name beating a supplied source index, and a target
index used in the absence of a target name. -/
theorem connect_missing_info_passthrough_witness :
    (pyTruthy (JVal.jobj [("success", JVal.jbool false),
        ("error", JVal.jstr "connection refused")]) &&
      hasKey (JVal.jobj [("success", JVal.jbool false),
        ("error", JVal.jstr "connection refused")]) "result" &&
      hasKey (getKey (JVal.jobj [("success", JVal.jbool false),
        ("error", JVal.jstr "connection refused")]) "result") "type")
      = false ∧
    (connect_components_cmd "s2" "t2" (some "Out") none (some 2) (some 1)
        (JVal.jobj [("success", JVal.jbool false),
          ("error", JVal.jstr "connection refused")]) JVal.jnull).1
      = "connect_components" ∧
    alookup (connect_components_cmd "s2" "t2" (some "Out") none (some 2)
        (some 1)
        (JVal.jobj [("success", JVal.jbool false),
          ("error", JVal.jstr "connection refused")]) JVal.jnull).2
        "sourceParam" = some (JVal.jstr "Out") ∧
    alookup (connect_components_cmd "s2" "t2" (some "Out") none (some 2)
        (some 1)
        (JVal.jobj [("success", JVal.jbool false),
          ("error", JVal.jstr "connection refused")]) JVal.jnull).2
        "sourceParamIndex" = none ∧
    alookup (connect_components_cmd "s2" "t2" (some "Out") none (some 2)
        (some 1)
        (JVal.jobj [("success", JVal.jbool false),
          ("error", JVal.jstr "connection refused")]) JVal.jnull).2
        "targetParamIndex" = some (JVal.jnum ((1 : Int) : ℚ)) ∧
    alookup (connect_components_cmd "s2" "t2" (some "Out") none (some 2)
        (some 1)
        (JVal.jobj [("success", JVal.jbool false),
          ("error", JVal.jstr "connection refused")]) JVal.jnull).2
        "targetParam" = none :=
  ⟨by rfl,
   (connect_missing_info_passthrough "s2" "t2" (some "Out") none (some 2)
      (some 1)
      (JVal.jobj [("success", JVal.jbool false),
        ("error", JVal.jstr "connection refused")]) JVal.jnull (by rfl)).1,
   ((connect_missing_info_passthrough "s2" "t2" (some "Out") none (some 2)
      (some 1)
      (JVal.jobj [("success", JVal.jbool false),
        ("error", JVal.jstr "connection refused")]) JVal.jnull
      (by rfl)).2.2.2.1 "Out" rfl).1,
   ((connect_missing_info_passthrough "s2" "t2" (some "Out") none (some 2)
      (some 1)
      (JVal.jobj [("success", JVal.jbool false),
        ("error", JVal.jstr "connection refused")]) JVal.jnull
      (by rfl)).2.2.2.1 "Out" rfl).2,
   ((connect_missing_info_passthrough "s2" "t2" (some "Out") none (some 2)
      (some 1)
      (JVal.jobj [("success", JVal.jbool false),
        ("error", JVal.jstr "connection refused")]) JVal.jnull
      (by rfl)).2.2.2.2.2.2.2.1 1 rfl rfl).1,
   ((connect_missing_info_passthrough "s2" "t2" (some "Out") none (some 2)
      (some 1)
      (JVal.jobj [("success", JVal.jbool false),
        ("error", JVal.jstr "connection refused")]) JVal.jnull
      (by rfl)).2.2.2.2.2.2.2.1 1 rfl rfl).2⟩

/-- The environment a single `send_to_grasshopper` exchange runs
against: each fallible transport stage either succeeds or raises a
Python exception, modelled as an `Except` outcome; decoding and JSON
parsing are oracle functions of the received/decoded data. -/
structure TransportWorld where
  connectRes : Except String Unit
  sendRes : Except String Unit
  recvRes : Except String (List (List Nat))
  decodeRes : List Nat → Except String String
  parseRes : String → Except String JVal

/-- The `recv` accumulation loop of `send_to_grasshopper`: concatenate
chunks until an empty read (closed connection) or until the accumulated
bytes end with the newline delimiter (byte 10). -/
def recvAccum : List (List Nat) → List Nat → List Nat
  | [], acc => acc
  | c :: rest, acc =>
      if c.isEmpty then acc
      else
        if (acc ++ c).getLast? = some 10 then acc ++ c
        else recvAccum rest (acc ++ c)

/-- The fallible pipeline inside the `try` block of
`send_to_grasshopper`: connect, send, receive until the delimiter,
decode (stripping a byte-order mark), strip whitespace, parse JSON. -/
def runExchange (w : TransportWorld) : Except String JVal :=
  match w.connectRes with
  | .error e => .error e
  | .ok _ =>
    match w.sendRes with
    | .error e => .error e
    | .ok _ =>
      match w.recvRes with
      | .error e => .error e
      | .ok chunks =>
        match w.decodeRes (recvAccum chunks []) with
        | .error e => .error e
        | .ok s =>
          match w.parseRes (pyStrip s) with
          | .error e => .error e
          | .ok r => .ok r

/-- `send_to_grasshopper(command_type, params)` run against a transport
world: the parsed response on success, and the failure dictionary
`{"success": false, "error": "Error communicating with Grasshopper: …"}`
when any stage of the exchange raises. -/
def send_to_grasshopper (command_type : String)
    (params : List (String × JVal)) (w : TransportWorld) : JVal :=
  match runExchange w with
  | .ok r => r
  | .error e =>
      JVal.jobj [("success", JVal.jbool false),
        ("error", JVal.jstr ("Error communicating with Grasshopper: " ++ e))]

/-- C5: for every command kind, parameter mapping and transport world,
`send_to_grasshopper` returns a value: either the parsed peer response,
or, whenever any stage of the exchange fails, the
`{success: false, error: descriptive message}` dictionary — no fault
escapes to the caller. -/
theorem transport_faults_become_values (command_type : String)
    (params : List (String × JVal)) (w : TransportWorld) :
    (∃ r, runExchange w = .ok r ∧
      send_to_grasshopper command_type params w = r) ∨
    (∃ e, runExchange w = .error e ∧
      send_to_grasshopper command_type params w
        = JVal.jobj [("success", JVal.jbool false),
            ("error", JVal.jstr
              ("Error communicating with Grasshopper: " ++ e))] ∧
      alookup [("success", JVal.jbool false),
          ("error", JVal.jstr
            ("Error communicating with Grasshopper: " ++ e))] "success"
        = some (JVal.jbool false)) := by
  cases h : runExchange w with
  | ok r =>
      left
      exact ⟨r, rfl, by unfold send_to_grasshopper; rw [h]⟩
  | error e =>
      right
      exact ⟨e, rfl, by unfold send_to_grasshopper; rw [h], rfl⟩
